import Mathlib

/-!
Verification of the configuration-store conformance harness
(`refactor_config.go`, package `mock`).

The harness drives an arbitrary store implementing the five-operation
contract (Create, Update, Get, List, Delete) through a fixed CRUD
sequence and records assertion failures.  We embed the harness shallowly:

* the resource data model (`Config` / `Meta` / `ConfigSpec`) follows the
  fields the spec's data model names (kind, name, namespace, labels,
  annotations, version, createdAt, spec) — the Go `config.Config` type is
  an external dependency of the repository and the harness accesses
  exactly these fields;
* the store under test is a parameter: a state type `σ` together with
  response functions for the five operations (`ConfigStore`);
* each harness function returns the sequence of store operations it
  issued (its trace), the threaded store state, and the list of non-fatal
  assertion failures it reported (`t.Error` / `t.Errorf` calls); the one
  `t.Fatal` site is a separate fatal outcome.
-/

/-- Group/version/kind triple identifying a resource type
(istio `resource.GroupVersionKind`). -/
structure GroupVersionKind where
  group : String
  version : String
  kind : String
deriving DecidableEq

/-- The gvk of the harness's dedicated mock test kind
(`collections.Mock.GroupVersionKind()`, an external registry constant). -/
def mockGvk : GroupVersionKind :=
  { group := "test.istio.io", version := "v1", kind := "MockConfig" }

/-- One key/value pair of the mock spec payload (`config.ConfigPair`). -/
structure ConfigPair where
  key : String
  value : String
deriving DecidableEq

/-- The mock spec payload (`config.MockConfig`): an identity field and
auxiliary pairs. -/
structure MockConfig where
  key : String
  pairs : List ConfigPair
deriving DecidableEq

/-- `networking.Destination` — only the field the example payload sets. -/
structure Destination where
  host : String
deriving DecidableEq

/-- `networking.HTTPRouteDestination`. -/
structure HTTPRouteDestination where
  destination : Destination
  weight : Int
deriving DecidableEq

/-- `networking.HTTPRoute`. -/
structure HTTPRoute where
  route : List HTTPRouteDestination
deriving DecidableEq

/-- `networking.VirtualService`. -/
structure VirtualService where
  hosts : List String
  http : List HTTPRoute
deriving DecidableEq

/-- `networking.ServiceEntry_Resolution` (the example uses `NONE`). -/
inductive EntryResolution where
  | NONE
  | STATIC
  | DNS
deriving DecidableEq

/-- `networking.ServicePort`. -/
structure ServicePort where
  number : Nat
  name : String
  protocol : String
deriving DecidableEq

/-- `networking.ServiceEntry`. -/
structure ServiceEntry where
  hosts : List String
  resolution : EntryResolution
  ports : List ServicePort
deriving DecidableEq

/-- `networking.Port`. -/
structure GatewayPort where
  name : String
  protocol : String
  number : Nat
deriving DecidableEq

/-- `networking.Server`. -/
structure GatewayServer where
  hosts : List String
  port : GatewayPort
deriving DecidableEq

/-- `networking.Gateway`. -/
structure Gateway where
  servers : List GatewayServer
deriving DecidableEq

/-- `networking.LoadBalancerSettings_Simple` wrapper; `new(...)` in Go
yields the zero value of the `Simple` enum, modelled as `simple 0`. -/
inductive LbPolicy where
  | simple (value : Nat)
deriving DecidableEq

/-- `networking.LoadBalancerSettings`. -/
structure LoadBalancerSettings where
  lbPolicy : LbPolicy
deriving DecidableEq

/-- `networking.TrafficPolicy`. -/
structure TrafficPolicy where
  loadBalancer : LoadBalancerSettings
deriving DecidableEq

/-- `networking.DestinationRule`. -/
structure DestinationRule where
  host : String
  trafficPolicy : TrafficPolicy
deriving DecidableEq

/-- `api.WorkloadSelector`. -/
structure WorkloadSelector where
  matchLabels : List (String × String)
deriving DecidableEq

/-- `authz.AuthorizationPolicy`. -/
structure AuthorizationPolicy where
  selector : WorkloadSelector
deriving DecidableEq

/-- The typed spec payload of a resource.  `nilSpec` is the Go nil
interface value carried by the zero-value `config2.Config{}`. -/
inductive ConfigSpec where
  | nilSpec
  | mock (m : MockConfig)
  | virtualService (v : VirtualService)
  | destinationRule (d : DestinationRule)
  | serviceEntry (s : ServiceEntry)
  | gateway (g : Gateway)
  | authorizationPolicy (a : AuthorizationPolicy)
deriving DecidableEq

/-- Identity metadata of a resource: the fields of the spec's data model
that the harness reads or writes (istio `config.Meta`). -/
structure Meta where
  groupVersionKind : GroupVersionKind
  name : String
  namespc : String
  labels : List (String × String)
  annotations : List (String × String)
  resourceVersion : String
  creationTimestamp : Nat
deriving DecidableEq

/-- A stored resource (istio `config.Config`): metadata plus spec. -/
structure Config where
  meta : Meta
  spec : ConfigSpec
deriving DecidableEq

/-- The zero-value resource `config2.Config{}`. -/
def emptyConfig : Config :=
  { meta := { groupVersionKind := { group := "", version := "", kind := "" },
              name := "", namespc := "", labels := [], annotations := [],
              resourceVersion := "", creationTimestamp := 0 },
    spec := ConfigSpec.nilSpec }

/-- The decimal digit character for `n < 10`. -/
def digitChar (n : Nat) : Char := Char.ofNat (48 + n)

/-- Fuel-driven digit accumulation: prepends the decimal digits of `n`
to `acc`, most significant first.  Models the decimal formatting of
`fmt.Sprintf("%d", i)` / `strconv.Itoa` on non-negative values. -/
def itoaLoop : Nat → Nat → List Char → List Char
  | 0, _, acc => acc
  | fuel + 1, n, acc =>
    if n < 10 then digitChar n :: acc
    else itoaLoop fuel (n / 10) (digitChar (n % 10) :: acc)

/-- Decimal representation of a natural number, as produced by Go's
`%d` formatting of a non-negative `int`. -/
def itoa (n : Nat) : String := ⟨itoaLoop (n + 1) n []⟩

/-- `Make` creates a mock config indexed by a number
(`fmt.Sprintf("%s%d", "mock-config", i)` for the name). -/
def Make (namespc : String) (i : Nat) : Config :=
  let name := "mock-config" ++ itoa i
  { meta := { groupVersionKind := mockGvk,
              name := name,
              namespc := namespc,
              labels := [("key", name)],
              annotations := [("annotationkey", name)],
              resourceVersion := "",
              creationTimestamp := 0 },
    spec := ConfigSpec.mock { key := name, pairs := [{ key := "key", value := itoa i }] } }

/-- `Compare` checks two configs ignoring revisions and creation time:
it zeroes `ResourceVersion` and `CreationTimestamp` on both sides and
then tests structural equality (`reflect.DeepEqual`). -/
def Compare (a b : Config) : Bool :=
  let a := { a with meta := { a.meta with resourceVersion := "", creationTimestamp := 0 } }
  let b := { b with meta := { b.meta with resourceVersion := "", creationTimestamp := 0 } }
  decide (a = b)

/-- `createConfigs` builds the `n` fixtures `Make namespc 0 .. Make namespc (n-1)`
(the Go `map[int]config2.Config` keyed by `0..n-1`, listed in index order). -/
def createConfigs (namespc : String) (n : Nat) : List Config :=
  (List.range n).map (Make namespc)

/-- One operation issued by the harness against the store under test.
`deleteOp` records the optional resource-version precondition (always
`nil` in the harness). -/
inductive StoreOp where
  | createOp (cfg : Config)
  | updateOp (cfg : Config)
  | getOp (gvk : GroupVersionKind) (name : String) (namespc : String)
  | listOp (gvk : GroupVersionKind) (namespc : String)
  | deleteOp (gvk : GroupVersionKind) (name : String) (namespc : String) (rv : Option String)
deriving DecidableEq

/-- A non-fatal assertion failure (`t.Error` / `t.Errorf`), tagged by the
call site that reported it and the data the message interpolates. -/
inductive Failure where
  | expectedConfigMockTypes
  | createError (msg : String)
  | readBackMismatch (wanted : Config) (got : Option Config)
  | expectedErrorOnCreate (cfg : Config)
  | expectedErrorOnUpdate (cfg : Config)
  | unexpectedObjectsForMissingType
  | unexpectedConfigFound
  | deleteError (msg : String)
  | leftoverElements (l : List Config)
  | expectedNonZeroConfigs
  | expectedStoredConfig
deriving DecidableEq

/-- The store contract the harness drives (istio `model.ConfigStore`),
as response functions over an abstract store state `σ`.  `create` and
`update` return a revision string or an error; `delete` returns an
optional error; `get` and `list` are reads. -/
structure ConfigStore (σ : Type) where
  hasSchema : GroupVersionKind → Bool
  create : σ → Config → σ × Except String String
  update : σ → Config → σ × Except String String
  get : σ → GroupVersionKind → String → String → Option Config
  list : σ → GroupVersionKind → String → List Config
  delete : σ → GroupVersionKind → String → String → Option String → σ × Option String

/-- Result of one harness phase: the threaded store state, the trace of
store operations issued, and the non-fatal failures reported. -/
structure StepResult (σ : Type) where
  state : σ
  trace : List StoreOp
  failures : List Failure
deriving DecidableEq

/-- `createConfigsInStore`: calls `Create` once per fixture; an error is
reported non-fatally and the loop continues. -/
def createConfigsInStore {σ : Type} (r : ConfigStore σ) (s : σ) : List Config → StepResult σ
  | [] => ⟨s, [], []⟩
  | elt :: rest =>
    let c := r.create s elt
    let here : List Failure :=
      match c.2 with
      | .error m => [Failure.createError m]
      | .ok _ => []
    let restRes := createConfigsInStore r c.1 rest
    ⟨restRes.state, StoreOp.createOp elt :: restRes.trace, here ++ restRes.failures⟩

/-- The read-back condition of `verifyConfigsInStore`: the stored value
is non-null and `Compare`-equal to the fixture (negation of
`v1 == nil || !Compare(elt, *v1)`). -/
def readBackOk {σ : Type} (r : ConfigStore σ) (s : σ) (elt : Config) : Bool :=
  match r.get s mockGvk elt.meta.name elt.meta.namespc with
  | none => false
  | some v1 => Compare elt v1

/-- `verifyConfigsInStore`: for every fixture, `Get(mockGvk, name, namespace)`
must return a non-null resource `Compare`-equal to the fixture; a mismatch
is reported non-fatally.  (The Go code also records the observed
`ResourceVersion` of each match into a map `revs` that is local to the
function and discarded on return.) -/
def verifyConfigsInStore {σ : Type} (r : ConfigStore σ) (s : σ) : List Config → StepResult σ
  | [] => ⟨s, [], []⟩
  | elt :: rest =>
    let v1 := r.get s mockGvk elt.meta.name elt.meta.namespc
    let here : List Failure :=
      if readBackOk r s elt then [] else [Failure.readBackMismatch elt v1]
    let restRes := verifyConfigsInStore r s rest
    ⟨restRes.state, StoreOp.getOp mockGvk elt.meta.name elt.meta.namespc :: restRes.trace,
      here ++ restRes.failures⟩

/-- `getFirstRevision` returns the `ResourceVersion` of the first fixture
the iteration yields, or `""` for an empty collection. -/
def getFirstRevision : List Config → String
  | [] => ""
  | elt :: _ => elt.meta.resourceVersion

/-- The `invalid` negative-case resource: correct kind, name `"invalid"`
not present in the store, `ResourceVersion` borrowed via
`getFirstRevision`, zero-value mock spec; all other fields zero. -/
def invalidConfig (elts : List Config) : Config :=
  { meta := { groupVersionKind := mockGvk,
              name := "invalid",
              namespc := "", labels := [], annotations := [],
              resourceVersion := getFirstRevision elts,
              creationTimestamp := 0 },
    spec := ConfigSpec.mock { key := "", pairs := [] } }

/-- The `missing` negative-case resource: name `"missing"`, spec key
`"missing"`, `ResourceVersion` borrowed via `getFirstRevision`. -/
def missingConfig (elts : List Config) : Config :=
  { meta := { groupVersionKind := mockGvk,
              name := "missing",
              namespc := "", labels := [], annotations := [],
              resourceVersion := getFirstRevision elts,
              creationTimestamp := 0 },
    spec := ConfigSpec.mock { key := "missing", pairs := [] } }

/-- `assertError`: both `Create` and `Update` on `cfg` must return an
error; a nil error from either is reported non-fatally. -/
def assertError {σ : Type} (r : ConfigStore σ) (s : σ) (cfg : Config) : StepResult σ :=
  let c := r.create s cfg
  let f1 : List Failure :=
    match c.2 with
    | .error _ => []
    | .ok _ => [Failure.expectedErrorOnCreate cfg]
  let u := r.update c.1 cfg
  let f2 : List Failure :=
    match u.2 with
    | .error _ => []
    | .ok _ => [Failure.expectedErrorOnUpdate cfg]
  ⟨u.1, [StoreOp.createOp cfg, StoreOp.updateOp cfg], f1 ++ f2⟩

/-- `verifyMissingElements`: `List(mockGvk, "")` must be empty and
`Get(mockGvk, "missing", "")` must be nil; both namespace arguments are
the empty string. -/
def verifyMissingElements {σ : Type} (r : ConfigStore σ) (s : σ) : StepResult σ :=
  let l := r.list s mockGvk ""
  let f1 : List Failure :=
    if l.length > 0 then [Failure.unexpectedObjectsForMissingType] else []
  let cfg := r.get s mockGvk "missing" ""
  let f2 : List Failure :=
    match cfg with
    | some _ => [Failure.unexpectedConfigFound]
    | none => []
  ⟨s, [StoreOp.listOp mockGvk "", StoreOp.getOp mockGvk "missing" ""], f1 ++ f2⟩

/-- `verifyErrorsOnInvalidOperations`: exercises `Create`/`Update` on the
zero-value, `invalid` and `missing` resources, then checks the missing
elements. -/
def verifyErrorsOnInvalidOperations {σ : Type} (r : ConfigStore σ) (s : σ)
    (elts : List Config) : StepResult σ :=
  let a0 := assertError r s emptyConfig
  let a1 := assertError r a0.state (invalidConfig elts)
  let a2 := assertError r a1.state (missingConfig elts)
  let m := verifyMissingElements r a2.state
  ⟨m.state, a0.trace ++ a1.trace ++ a2.trace ++ m.trace,
    a0.failures ++ a1.failures ++ a2.failures ++ m.failures⟩

/-- The deletion loop of `deleteConfigsFromStore`: `Delete` once per
index, with the name regenerated via `Make`, nil revision precondition;
an error is reported non-fatally. -/
def deleteLoop {σ : Type} (r : ConfigStore σ) (s : σ) (namespc : String) : List Nat → StepResult σ
  | [] => ⟨s, [], []⟩
  | i :: rest =>
    let d := r.delete s mockGvk (Make namespc i).meta.name namespc none
    let here : List Failure :=
      match d.2 with
      | some m => [Failure.deleteError m]
      | none => []
    let restRes := deleteLoop r d.1 namespc rest
    ⟨restRes.state, StoreOp.deleteOp mockGvk (Make namespc i).meta.name namespc none :: restRes.trace,
      here ++ restRes.failures⟩

/-- `deleteConfigsFromStore`: delete every fixture identity, then
`List(mockGvk, namespace)` must return zero elements. -/
def deleteConfigsFromStore {σ : Type} (r : ConfigStore σ) (s : σ)
    (namespc : String) (n : Nat) : StepResult σ :=
  let del := deleteLoop r s namespc (List.range n)
  let l := r.list del.state mockGvk namespc
  let f2 : List Failure :=
    if l.length ≠ 0 then [Failure.leftoverElements l] else []
  ⟨del.state, del.trace ++ [StoreOp.listOp mockGvk namespc], del.failures ++ f2⟩

/-- Outcome of `CheckMapInvariant`: state, trace and non-fatal failures,
plus the fatal outcome of the `t.Fatal` site (set when the registry does
not resolve the mock kind, in which case nothing else runs). -/
structure RunResult (σ : Type) where
  state : σ
  trace : List StoreOp
  failures : List Failure
  fatal : Option Failure
deriving DecidableEq

/-- `CheckMapInvariant` validates operational invariants of an empty
config registry: type presence (fatal on failure), fixture creation,
read-back verification, negative cases, bulk deletion. -/
def CheckMapInvariant {σ : Type} (r : ConfigStore σ) (s : σ)
    (namespc : String) (n : Nat) : RunResult σ :=
  if r.hasSchema mockGvk then
    let elts := createConfigs namespc n
    let p1 := createConfigsInStore r s elts
    let p2 := verifyConfigsInStore r p1.state elts
    let p3 := verifyErrorsOnInvalidOperations r p2.state elts
    let p4 := deleteConfigsFromStore r p3.state namespc n
    ⟨p4.state, p1.trace ++ p2.trace ++ p3.trace ++ p4.trace,
      p1.failures ++ p2.failures ++ p3.failures ++ p4.failures, none⟩
  else
    ⟨s, [], [], some Failure.expectedConfigMockTypes⟩

/-- `ExampleVirtualService`. -/
def ExampleVirtualService : VirtualService :=
  { hosts := ["prod", "test"],
    http := [{ route := [{ destination := { host := "job" }, weight := 80 }] }] }

/-- `ExampleServiceEntry`. -/
def ExampleServiceEntry : ServiceEntry :=
  { hosts := ["*.google.com"],
    resolution := EntryResolution.NONE,
    ports := [{ number := 80, name := "http-name", protocol := "http" },
              { number := 8080, name := "http2-name", protocol := "http2" }] }

/-- `ExampleGateway`. -/
def ExampleGateway : Gateway :=
  { servers := [{ hosts := ["google.com"],
                  port := { name := "http", protocol := "http", number := 10080 } }] }

/-- `ExampleDestinationRule`. -/
def ExampleDestinationRule : DestinationRule :=
  { host := "ratings",
    trafficPolicy := { loadBalancer := { lbPolicy := LbPolicy.simple 0 } } }

/-- `ExampleAuthorizationPolicy`. -/
def ExampleAuthorizationPolicy : AuthorizationPolicy :=
  { selector := { matchLabels := [("app", "httpbin"), ("version", "v1")] } }

/-- What the harness reads from a registered schema
(`resource.Schema`): its gvk and its scoping rule. -/
structure Schema where
  gvk : GroupVersionKind
  clusterScoped : Bool
deriving DecidableEq

/-- The five example schemas the harness names
(`collections.VirtualService`, ..., `collections.AuthorizationPolicy`).
The registry is an external collaborator, so the schemas — in particular
each kind's scoping rule — are a parameter of the model. -/
structure Collections where
  virtualService : Schema
  destinationRule : Schema
  serviceEntry : Schema
  gateway : Schema
  authorizationPolicy : Schema
deriving DecidableEq

/-- One row of the `cases` table in `CheckIstioConfigTypes`. -/
structure IstioCase where
  name : String
  configName : String
  schema : Schema
  spec : ConfigSpec
deriving DecidableEq

/-- The `cases` slice of `CheckIstioConfigTypes`, in source order, with
`configName := "example"` throughout. -/
def istioCases (cols : Collections) : List IstioCase :=
  [ { name := "VirtualService", configName := "example",
      schema := cols.virtualService, spec := ConfigSpec.virtualService ExampleVirtualService },
    { name := "DestinationRule", configName := "example",
      schema := cols.destinationRule, spec := ConfigSpec.destinationRule ExampleDestinationRule },
    { name := "ServiceEntry", configName := "example",
      schema := cols.serviceEntry, spec := ConfigSpec.serviceEntry ExampleServiceEntry },
    { name := "Gateway", configName := "example",
      schema := cols.gateway, spec := ConfigSpec.gateway ExampleGateway },
    { name := "AuthorizationPolicy", configName := "example",
      schema := cols.authorizationPolicy, spec := ConfigSpec.authorizationPolicy ExampleAuthorizationPolicy } ]

/-- The identity metadata one sub-test constructs: gvk and name always;
the namespace field is set to the invoked namespace only when the schema
is not cluster-scoped, and left at its zero value otherwise. -/
def caseMeta (namespc : String) (c : IstioCase) : Meta :=
  let base : Meta :=
    { groupVersionKind := c.schema.gvk, name := c.configName,
      namespc := "", labels := [], annotations := [],
      resourceVersion := "", creationTimestamp := 0 }
  if !c.schema.clusterScoped then { base with namespc := namespc } else base

/-- The body of one `t.Run` sub-test of `CheckIstioConfigTypes`:
`Create` the case's resource, assert `List(gvk, namespace)` is non-empty
and `Get(gvk, configName, namespace)` is non-null — both with the
namespace argument `CheckIstioConfigTypes` was invoked with. -/
def runIstioCase {σ : Type} (store : ConfigStore σ) (s : σ)
    (namespc : String) (c : IstioCase) : StepResult σ :=
  let cfg : Config := { meta := caseMeta namespc c, spec := c.spec }
  let cr := store.create s cfg
  let f1 : List Failure :=
    match cr.2 with
    | .error m => [Failure.createError m]
    | .ok _ => []
  let configs := store.list cr.1 c.schema.gvk namespc
  let f2 : List Failure :=
    if configs.length = 0 then [Failure.expectedNonZeroConfigs] else []
  let storedConfig := store.get cr.1 c.schema.gvk c.configName namespc
  let f3 : List Failure :=
    match storedConfig with
    | none => [Failure.expectedStoredConfig]
    | some _ => []
  ⟨cr.1, [StoreOp.createOp cfg, StoreOp.listOp c.schema.gvk namespc,
          StoreOp.getOp c.schema.gvk c.configName namespc], f1 ++ f2 ++ f3⟩

/-- Runs the sub-tests in order; each case reports independently (its
failures are tagged with its case name) and every case runs regardless
of the outcome of the previous ones. -/
def runIstioCases {σ : Type} (store : ConfigStore σ) (namespc : String) :
    σ → List IstioCase → σ × List (String × List StoreOp × List Failure)
  | s, [] => (s, [])
  | s, c :: cs =>
    let r1 := runIstioCase store s namespc c
    let rest := runIstioCases store namespc r1.state cs
    (rest.1, (c.name, r1.trace, r1.failures) :: rest.2)

/-- `CheckIstioConfigTypes` validates that an empty store can ingest the
five example Istio config objects, one independent sub-test per kind. -/
def CheckIstioConfigTypes {σ : Type} (cols : Collections) (store : ConfigStore σ)
    (s : σ) (namespc : String) : σ × List (String × List StoreOp × List Failure) :=
  runIstioCases store namespc s (istioCases cols)

/-! ### Proof-side definitions

Decoders and abbreviations used only to state and prove properties of
the embedding above, plus concrete store stubs used as witnesses. -/

/-- Numeric value of a digit character. -/
def charVal (c : Char) : Nat := c.toNat - 48

/-- Value of a most-significant-first digit string. -/
def listVal (cs : List Char) : Nat := cs.foldl (fun a c => 10 * a + charVal c) 0

/-- The failures the read-back check reports for one fixture. -/
def readBackFailures {σ : Type} (r : ConfigStore σ) (s : σ) (elt : Config) : List Failure :=
  if readBackOk r s elt then []
  else [Failure.readBackMismatch elt (r.get s mockGvk elt.meta.name elt.meta.namespc)]

/-- Whether a store write response is an error. -/
def isErr {ε α : Type} : Except ε α → Bool
  | .error _ => true
  | .ok _ => false

/-- The failure `assertError` reports for one write response: present
exactly when the expected error is missing. -/
def errFail {ε α : Type} (res : Except ε α) (f : Failure) : List Failure :=
  match res with
  | .error _ => []
  | .ok _ => [f]

/-- The operations `verifyErrorsOnInvalidOperations` issues, in order. -/
def negativeTrace (elts : List Config) : List StoreOp :=
  [StoreOp.createOp emptyConfig, StoreOp.updateOp emptyConfig,
   StoreOp.createOp (invalidConfig elts), StoreOp.updateOp (invalidConfig elts),
   StoreOp.createOp (missingConfig elts), StoreOp.updateOp (missingConfig elts),
   StoreOp.listOp mockGvk "", StoreOp.getOp mockGvk "missing" ""]

/-- The full, store-response-independent operation sequence of a
non-fatal `CheckMapInvariant` run. -/
def fullTrace (namespc : String) (n : Nat) : List StoreOp :=
  (createConfigs namespc n).map StoreOp.createOp ++
  (createConfigs namespc n).map (fun e => StoreOp.getOp mockGvk e.meta.name e.meta.namespc) ++
  negativeTrace (createConfigs namespc n) ++
  ((List.range n).map (fun i => StoreOp.deleteOp mockGvk (Make namespc i).meta.name namespc none) ++
    [StoreOp.listOp mockGvk namespc])

/-- A copy of `c` carrying a store-assigned version token and creation
time, as a store would return it. -/
def stamped (c : Config) (rv : String) (t : Nat) : Config :=
  { c with meta := { c.meta with resourceVersion := rv, creationTimestamp := t } }

/-- Store stub whose registry lacks the mock kind. -/
def noSchemaStore : ConfigStore Unit :=
  { hasSchema := fun _ => false,
    create := fun s _ => (s, Except.ok "v1"),
    update := fun s _ => (s, Except.ok "v1"),
    get := fun _ _ _ _ => none,
    list := fun _ _ _ => [],
    delete := fun s _ _ _ _ => (s, none) }

/-- Permissive store stub: every kind registered, writes succeed with
revision "v1", reads see nothing, deletes succeed. -/
def okStore : ConfigStore Unit :=
  { hasSchema := fun _ => true,
    create := fun s _ => (s, Except.ok "v1"),
    update := fun s _ => (s, Except.error "item not found"),
    get := fun _ _ _ _ => none,
    list := fun _ _ _ => [],
    delete := fun s _ _ _ _ => (s, none) }

/-- Store stub that version-stamps writes with "v7" and reads back the
first mock fixture of namespace "ns1" stamped accordingly. -/
def echoStore : ConfigStore Unit :=
  { hasSchema := fun _ => true,
    create := fun s _ => (s, Except.ok "v7"),
    update := fun s _ => (s, Except.error "item not found"),
    get := fun _ gvk name ns =>
      if gvk = mockGvk ∧ name = "mock-config0" ∧ ns = "ns1" then
        some (stamped (Make "ns1" 0) "v7" 5)
      else none,
    list := fun _ _ _ => [],
    delete := fun s _ _ _ _ => (s, none) }

/-- Store stub holding a live resource under identity
`(mockGvk, "missing", "ns1")` and nothing anywhere else. -/
def missingInNsStore : ConfigStore Unit :=
  { hasSchema := fun _ => true,
    create := fun s _ => (s, Except.error "unsupported"),
    update := fun s _ => (s, Except.error "unsupported"),
    get := fun _ gvk name ns =>
      if gvk = mockGvk ∧ name = "missing" ∧ ns = "ns1" then some emptyConfig else none,
    list := fun _ _ _ => [],
    delete := fun s _ _ _ _ => (s, none) }

/-- Example collections assignment in which the gateway kind is
cluster-scoped, exercising the cluster-scoped branch of
`CheckIstioConfigTypes`. -/
def colsClusterGw : Collections :=
  { virtualService := { gvk := { group := "networking.istio.io", version := "v1alpha3", kind := "VirtualService" }, clusterScoped := false },
    destinationRule := { gvk := { group := "networking.istio.io", version := "v1alpha3", kind := "DestinationRule" }, clusterScoped := false },
    serviceEntry := { gvk := { group := "networking.istio.io", version := "v1alpha3", kind := "ServiceEntry" }, clusterScoped := false },
    gateway := { gvk := { group := "networking.istio.io", version := "v1alpha3", kind := "Gateway" }, clusterScoped := true },
    authorizationPolicy := { gvk := { group := "security.istio.io", version := "v1beta1", kind := "AuthorizationPolicy" }, clusterScoped := false } }

/-- Store stub for the typed-ingestion check: resources are visible only
under namespace "ns1"; the empty namespace sees nothing. -/
def nsOnlyStore : ConfigStore Unit :=
  { hasSchema := fun _ => true,
    create := fun s _ => (s, Except.ok "v1"),
    update := fun s _ => (s, Except.ok "v1"),
    get := fun _ _ _ ns => if ns = "ns1" then some emptyConfig else none,
    list := fun _ _ ns => if ns = "ns1" then [emptyConfig] else [],
    delete := fun s _ _ _ _ => (s, none) }

lemma digitChar_toNat (n : Nat) (h : n < 10) : (digitChar n).toNat = 48 + n := by
  interval_cases n <;> decide

lemma itoaLoop_fuel (n : Nat) : ∀ f1 f2 acc, n < f1 → n < f2 →
    itoaLoop f1 n acc = itoaLoop f2 n acc := by
  induction n using Nat.strong_induction_on with
  | _ n ih =>
    intro f1 f2 acc h1 h2
    match f1, f2 with
    | g1 + 1, g2 + 1 =>
      simp only [itoaLoop]
      by_cases h : n < 10
      · simp [h]
      · simp only [h, if_false]
        exact ih (n / 10) (by omega) g1 g2 _ (by omega) (by omega)

lemma itoaLoop_append : ∀ fuel n acc, n < fuel →
    itoaLoop fuel n acc = itoaLoop fuel n [] ++ acc := by
  intro fuel
  induction fuel with
  | zero => intro n acc h; omega
  | succ f ih =>
    intro n acc h
    simp only [itoaLoop]
    by_cases h10 : n < 10
    · simp [h10]
    · simp only [h10, if_false]
      rw [ih (n / 10) _ (by omega), ih (n / 10) [digitChar (n % 10)] (by omega),
        List.append_assoc]
      rfl

lemma listVal_append_singleton (cs : List Char) (c : Char) :
    listVal (cs ++ [c]) = 10 * listVal cs + charVal c := by
  simp [listVal, List.foldl_append]

lemma itoa_val (n : Nat) : listVal (itoaLoop (n + 1) n []) = n := by
  induction n using Nat.strong_induction_on with
  | _ n ih =>
    by_cases h10 : n < 10
    · simp only [itoaLoop, h10, if_true]
      simp [listVal, charVal, digitChar_toNat n h10]
    · have h0 : itoaLoop (n + 1) n [] = itoaLoop (n / 10 + 1) (n / 10) [] ++ [digitChar (n % 10)] := by
        have h1 : itoaLoop (n + 1) n [] = itoaLoop n (n / 10) [digitChar (n % 10)] := by
          simp only [itoaLoop, h10, if_false]
        rw [h1, itoaLoop_fuel (n / 10) n (n / 10 + 1) _ (by omega) (by omega),
          itoaLoop_append (n / 10 + 1) (n / 10) _ (by omega)]
      rw [h0, listVal_append_singleton, ih (n / 10) (by omega), charVal,
        digitChar_toNat _ (by omega)]
      omega

lemma itoa_inj {m n : Nat} (h : itoa m = itoa n) : m = n := by
  have hd : itoaLoop (m + 1) m [] = itoaLoop (n + 1) n [] := congrArg String.data h
  have hv := itoa_val m
  rw [hd, itoa_val n] at hv
  omega

lemma make_name (namespc : String) (i : Nat) :
    (Make namespc i).meta.name = "mock-config" ++ itoa i := rfl

lemma make_name_inj {namespc : String} {i j : Nat}
    (h : (Make namespc i).meta.name = (Make namespc j).meta.name) : i = j := by
  apply itoa_inj
  apply String.ext
  have h2 := congrArg String.data h
  simp only [make_name, String.data_append] at h2
  exact List.append_cancel_left h2

lemma mem_createConfigs {namespc : String} {n i : Nat} (h : i < n) :
    Make namespc i ∈ createConfigs namespc n := by
  exact List.mem_map_of_mem (Make namespc) (List.mem_range.mpr h)

/-! ### Phase characterization lemmas -/

lemma createConfigsInStore_trace {σ : Type} (r : ConfigStore σ) :
    ∀ (s : σ) (elts : List Config),
      (createConfigsInStore r s elts).trace = elts.map StoreOp.createOp := by
  intro s elts
  induction elts generalizing s with
  | nil => rfl
  | cons e rest ih => simp [createConfigsInStore, ih]

lemma verifyConfigsInStore_spec {σ : Type} (r : ConfigStore σ) (s : σ)
    (elts : List Config) :
    verifyConfigsInStore r s elts =
      ⟨s, elts.map (fun e => StoreOp.getOp mockGvk e.meta.name e.meta.namespc),
        elts.flatMap (readBackFailures r s)⟩ := by
  induction elts with
  | nil => rfl
  | cons e rest ih => simp [verifyConfigsInStore, ih, readBackFailures]

lemma assertError_trace {σ : Type} (r : ConfigStore σ) (s : σ) (cfg : Config) :
    (assertError r s cfg).trace = [StoreOp.createOp cfg, StoreOp.updateOp cfg] := rfl

lemma assertError_state {σ : Type} (r : ConfigStore σ) (s : σ) (cfg : Config) :
    (assertError r s cfg).state = (r.update (r.create s cfg).1 cfg).1 := rfl

lemma assertError_failures {σ : Type} (r : ConfigStore σ) (s : σ) (cfg : Config) :
    (assertError r s cfg).failures =
      errFail (r.create s cfg).2 (Failure.expectedErrorOnCreate cfg) ++
      errFail (r.update (r.create s cfg).1 cfg).2 (Failure.expectedErrorOnUpdate cfg) := by
  simp only [assertError, errFail]
  cases hc : (r.create s cfg).2 <;> cases hu : (r.update (r.create s cfg).1 cfg).2 <;>
    simp [hc, hu]

lemma mem_errFail {ε α : Type} (res : Except ε α) (f g : Failure) :
    g ∈ errFail res f ↔ (g = f ∧ isErr res = false) := by
  cases res <;> simp [errFail, isErr]

lemma verifyErrorsOnInvalidOperations_trace {σ : Type} (r : ConfigStore σ) (s : σ)
    (elts : List Config) :
    (verifyErrorsOnInvalidOperations r s elts).trace = negativeTrace elts := rfl

lemma deleteLoop_trace {σ : Type} (r : ConfigStore σ) (namespc : String) :
    ∀ (s : σ) (idxs : List Nat),
      (deleteLoop r s namespc idxs).trace =
        idxs.map (fun i => StoreOp.deleteOp mockGvk (Make namespc i).meta.name namespc none) := by
  intro s idxs
  induction idxs generalizing s with
  | nil => rfl
  | cons i rest ih => simp [deleteLoop, ih]

lemma deleteLoop_failures_shape {σ : Type} (r : ConfigStore σ) (namespc : String) :
    ∀ (s : σ) (idxs : List Nat) (f : Failure),
      f ∈ (deleteLoop r s namespc idxs).failures → ∃ m, f = Failure.deleteError m := by
  intro s idxs
  induction idxs generalizing s with
  | nil => intro f h; simp [deleteLoop] at h
  | cons i rest ih =>
    intro f h
    simp only [deleteLoop, List.mem_append] at h
    rcases h with h | h
    · revert h
      cases hd : (r.delete s mockGvk (Make namespc i).meta.name namespc none).2 <;>
        intro h <;> simp_all
    · exact ih _ f h

lemma checkMapInvariant_fatal {σ : Type} (r : ConfigStore σ) (s : σ)
    (namespc : String) (n : Nat) (h : r.hasSchema mockGvk = false) :
    CheckMapInvariant r s namespc n = ⟨s, [], [], some Failure.expectedConfigMockTypes⟩ := by
  simp [CheckMapInvariant, h]

lemma checkMapInvariant_trace {σ : Type} (r : ConfigStore σ) (s : σ)
    (namespc : String) (n : Nat) (h : r.hasSchema mockGvk = true) :
    (CheckMapInvariant r s namespc n).trace = fullTrace namespc n := by
  simp [CheckMapInvariant, h, fullTrace, createConfigsInStore_trace,
    verifyConfigsInStore_spec, verifyErrorsOnInvalidOperations_trace,
    deleteConfigsFromStore, deleteLoop_trace]

lemma config_ne_of_name {a b : Config} (h : a.meta.name ≠ b.meta.name) : a ≠ b :=
  fun he => h (congrArg (fun c => c.meta.name) he)

lemma emptyConfig_ne_invalidConfig (elts : List Config) : emptyConfig ≠ invalidConfig elts :=
  fun he => (by decide : ("" : String) ≠ "invalid") (congrArg (fun c => c.meta.name) he)

lemma emptyConfig_ne_missingConfig (elts : List Config) : emptyConfig ≠ missingConfig elts :=
  fun he => (by decide : ("" : String) ≠ "missing") (congrArg (fun c => c.meta.name) he)

lemma invalidConfig_ne_missingConfig (elts : List Config) : invalidConfig elts ≠ missingConfig elts :=
  fun he => (by decide : ("invalid" : String) ≠ "missing") (congrArg (fun c => c.meta.name) he)

lemma verifyMissingElements_failures_shape {σ : Type} (r : ConfigStore σ) (s : σ)
    (f : Failure) (hf : f ∈ (verifyMissingElements r s).failures) :
    f = Failure.unexpectedObjectsForMissingType ∨ f = Failure.unexpectedConfigFound := by
  simp only [verifyMissingElements] at hf
  by_cases h1 : (r.list s mockGvk "").length > 0 <;>
    cases h2 : r.get s mockGvk "missing" "" <;>
      simp [h1, h2] at hf <;> simp [hf]

lemma expectedErrorOnCreate_not_mem_missing {σ : Type} (r : ConfigStore σ) (s : σ)
    (cfg : Config) :
    Failure.expectedErrorOnCreate cfg ∉ (verifyMissingElements r s).failures := by
  intro h
  rcases verifyMissingElements_failures_shape r s _ h with h' | h' <;> simp at h'

lemma expectedErrorOnUpdate_not_mem_missing {σ : Type} (r : ConfigStore σ) (s : σ)
    (cfg : Config) :
    Failure.expectedErrorOnUpdate cfg ∉ (verifyMissingElements r s).failures := by
  intro h
  rcases verifyMissingElements_failures_shape r s _ h with h' | h' <;> simp at h'

lemma mem_assertError_failures {σ : Type} (r : ConfigStore σ) (s : σ) (cfg : Config)
    (g : Failure) :
    g ∈ (assertError r s cfg).failures ↔
      ((g = Failure.expectedErrorOnCreate cfg ∧ isErr (r.create s cfg).2 = false) ∨
       (g = Failure.expectedErrorOnUpdate cfg ∧
         isErr (r.update (r.create s cfg).1 cfg).2 = false)) := by
  rw [assertError_failures]
  simp [mem_errFail]

lemma mem_failures_verifyErrors {σ : Type} (r : ConfigStore σ) (s : σ) (elts : List Config)
    (g : Failure) :
    g ∈ (verifyErrorsOnInvalidOperations r s elts).failures ↔
      (g ∈ (assertError r s emptyConfig).failures ∨
       g ∈ (assertError r (assertError r s emptyConfig).state (invalidConfig elts)).failures ∨
       g ∈ (assertError r (assertError r (assertError r s emptyConfig).state
              (invalidConfig elts)).state (missingConfig elts)).failures ∨
       g ∈ (verifyMissingElements r (assertError r (assertError r
              (assertError r s emptyConfig).state (invalidConfig elts)).state
              (missingConfig elts)).state).failures) := by
  simp [verifyErrorsOnInvalidOperations, List.mem_append, or_assoc]

lemma rv_of_mem_createConfigs {ns : String} {n : Nat} {f : Config}
    (h : f ∈ createConfigs ns n) : f.meta.resourceVersion = "" := by
  rcases List.mem_map.mp h with ⟨i, -, rfl⟩
  rfl

lemma getFirstRevision_createConfigs (ns : String) (n : Nat) :
    getFirstRevision (createConfigs ns n) = "" := by
  rcases hc : createConfigs ns n with - | ⟨e, rest⟩
  · rfl
  · have he : e ∈ createConfigs ns n := by
      rw [hc]
      exact List.mem_cons_self e rest
    simpa [getFirstRevision] using rv_of_mem_createConfigs he

/-! ### Claim theorems -/

/-- C1 (round-trip read-back): for every fixture `Make ns i` with
`i < n`, the read-back step issues `Get(mockGvk, f.name, f.namespace)`,
and it reports the non-fatal mismatch failure for that fixture exactly
when the store's reply is null or not `Compare`-equal to the fixture. -/
theorem claim_C1 {σ : Type} (r : ConfigStore σ) (s : σ) (ns : String) (n i : Nat)
    (h : i < n) :
    StoreOp.getOp mockGvk (Make ns i).meta.name (Make ns i).meta.namespc ∈
      (verifyConfigsInStore r s (createConfigs ns n)).trace ∧
    (Failure.readBackMismatch (Make ns i)
        (r.get s mockGvk (Make ns i).meta.name (Make ns i).meta.namespc) ∈
        (verifyConfigsInStore r s (createConfigs ns n)).failures ↔
      readBackOk r s (Make ns i) = false) := by
  rw [verifyConfigsInStore_spec]
  refine ⟨List.mem_map_of_mem _ (mem_createConfigs h), ?_, ?_⟩
  · intro hmem
    rcases List.mem_flatMap.mp hmem with ⟨e, _, hf⟩
    unfold readBackFailures at hf
    cases hok : readBackOk r s e with
    | true => simp [hok] at hf
    | false =>
      simp [hok] at hf
      obtain ⟨h1, -⟩ := hf
      rw [← h1] at hok
      exact hok
  · intro hfalse
    exact List.mem_flatMap.mpr
      ⟨Make ns i, mem_createConfigs h, by simp [readBackFailures, hfalse]⟩

/-- Witness for C1: `echoStore` reads the fixture back stamped with
version "v7"; the round-trip succeeds and no mismatch is reported. -/
theorem claim_C1_witness :
    (0 : Nat) < 1 ∧
    (StoreOp.getOp mockGvk (Make "ns1" 0).meta.name (Make "ns1" 0).meta.namespc ∈
      (verifyConfigsInStore echoStore () (createConfigs "ns1" 1)).trace ∧
    (Failure.readBackMismatch (Make "ns1" 0)
        (echoStore.get () mockGvk (Make "ns1" 0).meta.name (Make "ns1" 0).meta.namespc) ∈
        (verifyConfigsInStore echoStore () (createConfigs "ns1" 1)).failures ↔
      readBackOk echoStore () (Make "ns1" 0) = false)) :=
  ⟨by decide, claim_C1 echoStore () "ns1" 1 0 (by decide)⟩

/-- C2 (equality relation): `Compare a b` holds iff `a` and `b` are
structurally equal after zeroing both the version token and the creation
timestamp of each — equivalently, iff they agree on kind, name,
namespace, labels, annotations and spec. -/
theorem claim_C2 (a b : Config) :
    (Compare a b = true ↔ stamped a "" 0 = stamped b "" 0) ∧
    (Compare a b = true ↔
      (a.meta.groupVersionKind = b.meta.groupVersionKind ∧ a.meta.name = b.meta.name ∧
       a.meta.namespc = b.meta.namespc ∧ a.meta.labels = b.meta.labels ∧
       a.meta.annotations = b.meta.annotations ∧ a.spec = b.spec)) := by
  obtain ⟨⟨g1, n1, ns1, l1, an1, rv1, t1⟩, sp1⟩ := a
  obtain ⟨⟨g2, n2, ns2, l2, an2, rv2, t2⟩, sp2⟩ := b
  constructor
  · simp [Compare, stamped]
  · simp [Compare, stamped]
    tauto

/-- C3 (rejection property): `verifyErrorsOnInvalidOperations` invokes
both `Create` and `Update` on each of the zero-value, `invalid` and
`missing` resources, and for each of the six calls it reports the
non-fatal missing-error failure exactly when the store's response is not
an error. -/
theorem claim_C3 {σ : Type} (r : ConfigStore σ) (s : σ) (elts : List Config) :
    (verifyErrorsOnInvalidOperations r s elts).trace = negativeTrace elts ∧
    (Failure.expectedErrorOnCreate emptyConfig ∈
        (verifyErrorsOnInvalidOperations r s elts).failures ↔
      isErr (r.create s emptyConfig).2 = false) ∧
    (Failure.expectedErrorOnUpdate emptyConfig ∈
        (verifyErrorsOnInvalidOperations r s elts).failures ↔
      isErr (r.update (r.create s emptyConfig).1 emptyConfig).2 = false) ∧
    (Failure.expectedErrorOnCreate (invalidConfig elts) ∈
        (verifyErrorsOnInvalidOperations r s elts).failures ↔
      isErr (r.create (assertError r s emptyConfig).state (invalidConfig elts)).2 = false) ∧
    (Failure.expectedErrorOnUpdate (invalidConfig elts) ∈
        (verifyErrorsOnInvalidOperations r s elts).failures ↔
      isErr (r.update (r.create (assertError r s emptyConfig).state (invalidConfig elts)).1
        (invalidConfig elts)).2 = false) ∧
    (Failure.expectedErrorOnCreate (missingConfig elts) ∈
        (verifyErrorsOnInvalidOperations r s elts).failures ↔
      isErr (r.create (assertError r (assertError r s emptyConfig).state
        (invalidConfig elts)).state (missingConfig elts)).2 = false) ∧
    (Failure.expectedErrorOnUpdate (missingConfig elts) ∈
        (verifyErrorsOnInvalidOperations r s elts).failures ↔
      isErr (r.update (r.create (assertError r (assertError r s emptyConfig).state
        (invalidConfig elts)).state (missingConfig elts)).1 (missingConfig elts)).2 = false) := by
  have hne1 := emptyConfig_ne_invalidConfig elts
  have hne2 := emptyConfig_ne_missingConfig elts
  have hne3 := invalidConfig_ne_missingConfig elts
  have hne4 := hne1.symm
  have hne5 := hne2.symm
  have hne6 := hne3.symm
  refine ⟨verifyErrorsOnInvalidOperations_trace r s elts, ?_, ?_, ?_, ?_, ?_, ?_⟩ <;>
    simp [mem_failures_verifyErrors, mem_assertError_failures,
      expectedErrorOnCreate_not_mem_missing, expectedErrorOnUpdate_not_mem_missing,
      hne1, hne2, hne3, hne4, hne5, hne6]

/-- C4 counterexample: a store holding a live resource at identity
`(mockGvk, "missing", "ns1")` while the empty namespace sees nothing.
In a `CheckMapInvariant` run over the tested namespace `"ns1"` the
harness never issues `Get(mockGvk, "missing", "ns1")` — it issues
`Get(mockGvk, "missing", "")` — and it reports no failure even though
`Get` in the tested namespace would return a non-null resource. -/
theorem claim_C4_cex :
    missingInNsStore.get () mockGvk "missing" "ns1" = some emptyConfig ∧
    Failure.unexpectedConfigFound ∉ (CheckMapInvariant missingInNsStore () "ns1" 1).failures ∧
    StoreOp.getOp mockGvk "missing" "ns1" ∉ (CheckMapInvariant missingInNsStore () "ns1" 1).trace ∧
    StoreOp.getOp mockGvk "missing" "" ∈ (CheckMapInvariant missingInNsStore () "ns1" 1).trace := by
  decide

/-- C4 as amended: during negative-case verification the harness asserts
that `Get(mockGvk, "missing", "")` — with the empty namespace argument —
returns null, and that `List(mockGvk, "")` returns an empty sequence;
either violation is reported non-fatally. -/
theorem claim_C4_amended {σ : Type} (r : ConfigStore σ) (s : σ) :
    (verifyMissingElements r s).trace =
      [StoreOp.listOp mockGvk "", StoreOp.getOp mockGvk "missing" ""] ∧
    (Failure.unexpectedObjectsForMissingType ∈ (verifyMissingElements r s).failures ↔
      (r.list s mockGvk "").length > 0) ∧
    (Failure.unexpectedConfigFound ∈ (verifyMissingElements r s).failures ↔
      (r.get s mockGvk "missing" "").isSome = true) := by
  refine ⟨rfl, ?_, ?_⟩ <;>
    by_cases h1 : (r.list s mockGvk "").length > 0 <;>
      cases h2 : r.get s mockGvk "missing" "" <;>
        simp [verifyMissingElements, h1, h2]

/-- C5 (deletion completeness): the deletion step issues exactly one
`Delete` per regenerated fixture name `mock-config0 .. mock-config(n-1)`
in the tested namespace (nil version precondition), in index order,
followed by one final `List(mockGvk, namespace)`; the emptiness of that
final listing is asserted, with a leftover failure reported exactly when
it is non-empty. -/
theorem claim_C5 {σ : Type} (r : ConfigStore σ) (s : σ) (ns : String) (n i : Nat)
    (h : i < n) :
    (deleteConfigsFromStore r s ns n).trace =
      (List.range n).map (fun j => StoreOp.deleteOp mockGvk (Make ns j).meta.name ns none) ++
        [StoreOp.listOp mockGvk ns] ∧
    (deleteConfigsFromStore r s ns n).trace.count
        (StoreOp.deleteOp mockGvk (Make ns i).meta.name ns none) = 1 ∧
    (deleteConfigsFromStore r s ns n).failures =
      (deleteLoop r s ns (List.range n)).failures ++
        (if (r.list (deleteLoop r s ns (List.range n)).state mockGvk ns).length ≠ 0
         then [Failure.leftoverElements (r.list (deleteLoop r s ns (List.range n)).state mockGvk ns)]
         else []) ∧
    (Failure.leftoverElements (r.list (deleteLoop r s ns (List.range n)).state mockGvk ns) ∈
        (deleteConfigsFromStore r s ns n).failures ↔
      (r.list (deleteLoop r s ns (List.range n)).state mockGvk ns).length ≠ 0) := by
  have htr : (deleteConfigsFromStore r s ns n).trace =
      (List.range n).map (fun j => StoreOp.deleteOp mockGvk (Make ns j).meta.name ns none) ++
        [StoreOp.listOp mockGvk ns] := by
    simp [deleteConfigsFromStore, deleteLoop_trace]
  refine ⟨htr, ?_, rfl, ?_⟩
  · rw [htr, List.count_append]
    have hinj : Function.Injective
        (fun j => StoreOp.deleteOp mockGvk (Make ns j).meta.name ns none) := by
      intro a b hab
      simp only [StoreOp.deleteOp.injEq] at hab
      exact make_name_inj hab.2.1
    have h1 : ((List.range n).map
        (fun j => StoreOp.deleteOp mockGvk (Make ns j).meta.name ns none)).count
        (StoreOp.deleteOp mockGvk (Make ns i).meta.name ns none) = 1 := by
      rw [show StoreOp.deleteOp mockGvk (Make ns i).meta.name ns none =
        (fun j => StoreOp.deleteOp mockGvk (Make ns j).meta.name ns none) i from rfl,
        List.count_map_of_injective _ _ hinj]
      exact List.count_eq_one_of_mem (List.nodup_range n) (List.mem_range.mpr h)
    have h2 : ([StoreOp.listOp mockGvk ns]).count
        (StoreOp.deleteOp mockGvk (Make ns i).meta.name ns none) = 0 := by
      simp
    omega
  · constructor
    · intro hmem
      simp only [deleteConfigsFromStore, List.mem_append] at hmem
      rcases hmem with hmem | hmem
      · rcases deleteLoop_failures_shape r ns s (List.range n) _ hmem with ⟨m, hm⟩
        simp at hm
      · by_cases hl : (r.list (deleteLoop r s ns (List.range n)).state mockGvk ns).length ≠ 0
        · exact hl
        · simp [hl] at hmem
    · intro hl
      simp [deleteConfigsFromStore, List.mem_append, hl]

/-- Witness for C5 at `okStore`, `n = 2`, `i = 0`. -/
theorem claim_C5_witness :
    (0 : Nat) < 2 ∧
    ((deleteConfigsFromStore okStore () "ns1" 2).trace =
      (List.range 2).map (fun j => StoreOp.deleteOp mockGvk (Make "ns1" j).meta.name "ns1" none) ++
        [StoreOp.listOp mockGvk "ns1"] ∧
    (deleteConfigsFromStore okStore () "ns1" 2).trace.count
        (StoreOp.deleteOp mockGvk (Make "ns1" 0).meta.name "ns1" none) = 1 ∧
    (deleteConfigsFromStore okStore () "ns1" 2).failures =
      (deleteLoop okStore () "ns1" (List.range 2)).failures ++
        (if (okStore.list (deleteLoop okStore () "ns1" (List.range 2)).state mockGvk "ns1").length ≠ 0
         then [Failure.leftoverElements (okStore.list (deleteLoop okStore () "ns1" (List.range 2)).state mockGvk "ns1")]
         else []) ∧
    (Failure.leftoverElements (okStore.list (deleteLoop okStore () "ns1" (List.range 2)).state mockGvk "ns1") ∈
        (deleteConfigsFromStore okStore () "ns1" 2).failures ↔
      (okStore.list (deleteLoop okStore () "ns1" (List.range 2)).state mockGvk "ns1").length ≠ 0)) :=
  ⟨by decide, claim_C5 okStore () "ns1" 2 0 (by decide)⟩

/-- C6 counterexample: `echoStore` assigns version "v7" on every write
and read-back observes "v7", yet the `invalid` and `missing` resources
the run submits carry the empty version token — not an observed one. -/
theorem claim_C6_cex :
    StoreOp.createOp (invalidConfig (createConfigs "ns1" 1)) ∈
      (CheckMapInvariant echoStore () "ns1" 1).trace ∧
    StoreOp.createOp (missingConfig (createConfigs "ns1" 1)) ∈
      (CheckMapInvariant echoStore () "ns1" 1).trace ∧
    (invalidConfig (createConfigs "ns1" 1)).meta.resourceVersion = "" ∧
    (missingConfig (createConfigs "ns1" 1)).meta.resourceVersion = "" ∧
    (echoStore.get () mockGvk "mock-config0" "ns1").map (fun c => c.meta.resourceVersion) =
      some "v7" := by
  decide

/-- C6 as amended: the version tokens observed during read-back are
collected only in a map local to `verifyConfigsInStore` and discarded —
the step's entire observable result is the unchanged state, its trace
and its failures — and the version token carried by the `invalid` and
`missing` resources is `getFirstRevision` of the fixtures, which is
always the empty string. -/
theorem claim_C6_amended (ns : String) (n : Nat) :
    getFirstRevision (createConfigs ns n) = "" ∧
    (invalidConfig (createConfigs ns n)).meta.resourceVersion = "" ∧
    (missingConfig (createConfigs ns n)).meta.resourceVersion = "" ∧
    ∀ (σ : Type) (r : ConfigStore σ) (s : σ),
      verifyConfigsInStore r s (createConfigs ns n) =
        ⟨s, (createConfigs ns n).map (fun e => StoreOp.getOp mockGvk e.meta.name e.meta.namespc),
          (createConfigs ns n).flatMap (readBackFailures r s)⟩ := by
  refine ⟨getFirstRevision_createConfigs ns n, ?_, ?_, ?_⟩
  · simp [invalidConfig, getFirstRevision_createConfigs]
  · simp [missingConfig, getFirstRevision_createConfigs]
  · intro σ r s
    exact verifyConfigsInStore_spec r s _

/-- C7 counterexample: with the gateway kind cluster-scoped and a store
whose resources are visible only under namespace "ns1", a
`CheckIstioConfigTypes` run invoked with "ns1" reports no failure for
any case, never issues `Get(gatewayGvk, "example", "")` — whose reply
would be null — and instead issues `Get(gatewayGvk, "example", "ns1")`. -/
theorem claim_C7_cex :
    colsClusterGw.gateway.clusterScoped = true ∧
    nsOnlyStore.get () colsClusterGw.gateway.gvk "example" "" = none ∧
    (CheckIstioConfigTypes colsClusterGw nsOnlyStore () "ns1").2.map (fun e => (e.1, e.2.2)) =
      [("VirtualService", []), ("DestinationRule", []), ("ServiceEntry", []),
       ("Gateway", []), ("AuthorizationPolicy", [])] ∧
    StoreOp.getOp colsClusterGw.gateway.gvk "example" "" ∉
      (CheckIstioConfigTypes colsClusterGw nsOnlyStore () "ns1").2.flatMap (fun e => e.2.1) ∧
    StoreOp.getOp colsClusterGw.gateway.gvk "example" "ns1" ∈
      (CheckIstioConfigTypes colsClusterGw nsOnlyStore () "ns1").2.flatMap (fun e => e.2.1) := by
  decide

/-- C7 as amended: each sub-test sets the namespace on the identity
metadata only when its kind is not cluster-scoped, calls `Create`, then
asserts `List(kind, namespace)` is non-empty and that the resource named
"example" is retrievable non-null via `Get(kind, "example", namespace)` —
always with the namespace argument the check was invoked with, including
for cluster-scoped kinds; the five sub-tests all run, independently. -/
theorem claim_C7_amended {σ : Type} (cols : Collections) (store : ConfigStore σ)
    (s : σ) (ns : String) (c : IstioCase) :
    (runIstioCase store s ns c).trace =
      [StoreOp.createOp { meta := caseMeta ns c, spec := c.spec },
       StoreOp.listOp c.schema.gvk ns,
       StoreOp.getOp c.schema.gvk c.configName ns] ∧
    (caseMeta ns c).namespc = (if c.schema.clusterScoped then "" else ns) ∧
    (caseMeta ns c).name = c.configName ∧
    (Failure.expectedNonZeroConfigs ∈ (runIstioCase store s ns c).failures ↔
      (store.list (store.create s { meta := caseMeta ns c, spec := c.spec }).1
        c.schema.gvk ns).length = 0) ∧
    (Failure.expectedStoredConfig ∈ (runIstioCase store s ns c).failures ↔
      store.get (store.create s { meta := caseMeta ns c, spec := c.spec }).1
        c.schema.gvk c.configName ns = none) ∧
    (CheckIstioConfigTypes cols store s ns).2.map Prod.fst =
      ["VirtualService", "DestinationRule", "ServiceEntry", "Gateway", "AuthorizationPolicy"] := by
  refine ⟨rfl, ?_, ?_, ?_, ?_, ?_⟩
  · cases hcs : c.schema.clusterScoped <;> simp [caseMeta, hcs]
  · cases hcs : c.schema.clusterScoped <;> simp [caseMeta, hcs]
  · cases hc : (store.create s { meta := caseMeta ns c, spec := c.spec }).2 <;>
      by_cases hl : (store.list (store.create s { meta := caseMeta ns c, spec := c.spec }).1
          c.schema.gvk ns).length = 0 <;>
        cases hg : store.get (store.create s { meta := caseMeta ns c, spec := c.spec }).1
            c.schema.gvk c.configName ns <;>
          simp [runIstioCase, hc, hl, hg]
  · cases hc : (store.create s { meta := caseMeta ns c, spec := c.spec }).2 <;>
      by_cases hl : (store.list (store.create s { meta := caseMeta ns c, spec := c.spec }).1
          c.schema.gvk ns).length = 0 <;>
        cases hg : store.get (store.create s { meta := caseMeta ns c, spec := c.spec }).1
            c.schema.gvk c.configName ns <;>
          simp [runIstioCase, hc, hl, hg]
  · simp [CheckIstioConfigTypes, istioCases, runIstioCases]

/-- C8 (fixture factory): `Make ns i` is exactly the record with name
`"mock-config" ++ itoa i`, the label and annotation keyed to that name,
and the mock spec whose identity field is the name and whose auxiliary
pair carries the decimal encoding of `i` (decoded by `listVal`);
distinct indices give distinct names, and `createConfigs ns n` is the
pointwise image of `Make ns` over `0 .. n-1`. -/
theorem claim_C8 (ns : String) (i j n : Nat) :
    Make ns i =
      { meta := { groupVersionKind := mockGvk, name := "mock-config" ++ itoa i, namespc := ns,
                  labels := [("key", "mock-config" ++ itoa i)],
                  annotations := [("annotationkey", "mock-config" ++ itoa i)],
                  resourceVersion := "", creationTimestamp := 0 },
        spec := ConfigSpec.mock { key := "mock-config" ++ itoa i,
                                  pairs := [{ key := "key", value := itoa i }] } } ∧
    ((Make ns i).meta.name = (Make ns j).meta.name ↔ i = j) ∧
    listVal (itoa i).data = i ∧
    createConfigs ns n = (List.range n).map (Make ns) := by
  refine ⟨rfl, ⟨fun h => make_name_inj h, fun h => by rw [h]⟩, itoa_val i, rfl⟩

/-- C9 (failure severity): if the registry does not resolve the mock
kind, `CheckMapInvariant` stops fatally having issued no store operation
and reported no other failure; if it does, the run never turns fatal,
issues the full response-independent operation sequence `fullTrace`
(so a failing `Create` or any other single mismatch never stops it), and
its failure list is the accumulation of all four phases' failures. -/
theorem claim_C9 {σ : Type} (r : ConfigStore σ) (s : σ) (ns : String) (n : Nat) :
    (r.hasSchema mockGvk = false →
      CheckMapInvariant r s ns n = ⟨s, [], [], some Failure.expectedConfigMockTypes⟩) ∧
    (r.hasSchema mockGvk = true →
      (CheckMapInvariant r s ns n).fatal = none ∧
      (CheckMapInvariant r s ns n).trace = fullTrace ns n ∧
      (CheckMapInvariant r s ns n).failures =
        (createConfigsInStore r s (createConfigs ns n)).failures ++
        (verifyConfigsInStore r (createConfigsInStore r s (createConfigs ns n)).state
          (createConfigs ns n)).failures ++
        (verifyErrorsOnInvalidOperations r
          (verifyConfigsInStore r (createConfigsInStore r s (createConfigs ns n)).state
            (createConfigs ns n)).state (createConfigs ns n)).failures ++
        (deleteConfigsFromStore r
          (verifyErrorsOnInvalidOperations r
            (verifyConfigsInStore r (createConfigsInStore r s (createConfigs ns n)).state
              (createConfigs ns n)).state (createConfigs ns n)).state ns n).failures) := by
  constructor
  · exact checkMapInvariant_fatal r s ns n
  · intro h
    refine ⟨?_, checkMapInvariant_trace r s ns n h, ?_⟩ <;> simp [CheckMapInvariant, h]

/-- Witness for C9: both branches, at a store missing the mock kind and
at a permissive store. -/
theorem claim_C9_witness :
    (noSchemaStore.hasSchema mockGvk = false ∧
      CheckMapInvariant noSchemaStore () "ns1" 2 =
        ⟨(), [], [], some Failure.expectedConfigMockTypes⟩) ∧
    (okStore.hasSchema mockGvk = true ∧
      ((CheckMapInvariant okStore () "ns1" 2).fatal = none ∧
       (CheckMapInvariant okStore () "ns1" 2).trace = fullTrace "ns1" 2 ∧
       (CheckMapInvariant okStore () "ns1" 2).failures =
         (createConfigsInStore okStore () (createConfigs "ns1" 2)).failures ++
         (verifyConfigsInStore okStore (createConfigsInStore okStore () (createConfigs "ns1" 2)).state
           (createConfigs "ns1" 2)).failures ++
         (verifyErrorsOnInvalidOperations okStore
           (verifyConfigsInStore okStore (createConfigsInStore okStore () (createConfigs "ns1" 2)).state
             (createConfigs "ns1" 2)).state (createConfigs "ns1" 2)).failures ++
         (deleteConfigsFromStore okStore
           (verifyErrorsOnInvalidOperations okStore
             (verifyConfigsInStore okStore (createConfigsInStore okStore () (createConfigs "ns1" 2)).state
               (createConfigs "ns1" 2)).state (createConfigs "ns1" 2)).state "ns1" 2).failures)) :=
  ⟨⟨rfl, (claim_C9 noSchemaStore () "ns1" 2).1 rfl⟩,
   ⟨rfl, (claim_C9 okStore () "ns1" 2).2 rfl⟩⟩

/-- C10 (fixtures never version-stamped): `Make` leaves
`ResourceVersion` empty, every fixture of `createConfigs` carries the
empty token, `getFirstRevision` of the fixtures is the empty string, and
the `invalid` and `missing` resources are submitted to `Create` carrying
the empty version token. -/
theorem claim_C10 {σ : Type} (r : ConfigStore σ) (s : σ) (ns : String) (n i : Nat)
    (_h : 1 ≤ n) :
    (Make ns i).meta.resourceVersion = "" ∧
    ((createConfigs ns n).all fun f => f.meta.resourceVersion == "") = true ∧
    getFirstRevision (createConfigs ns n) = "" ∧
    (invalidConfig (createConfigs ns n)).meta.resourceVersion = "" ∧
    (missingConfig (createConfigs ns n)).meta.resourceVersion = "" ∧
    StoreOp.createOp (invalidConfig (createConfigs ns n)) ∈
      (verifyErrorsOnInvalidOperations r s (createConfigs ns n)).trace ∧
    StoreOp.createOp (missingConfig (createConfigs ns n)) ∈
      (verifyErrorsOnInvalidOperations r s (createConfigs ns n)).trace := by
  refine ⟨rfl, ?_, getFirstRevision_createConfigs ns n, ?_, ?_, ?_, ?_⟩
  · rw [List.all_eq_true]
    intro f hf
    simp [rv_of_mem_createConfigs hf]
  · simp [invalidConfig, getFirstRevision_createConfigs]
  · simp [missingConfig, getFirstRevision_createConfigs]
  · rw [verifyErrorsOnInvalidOperations_trace]
    simp [negativeTrace]
  · rw [verifyErrorsOnInvalidOperations_trace]
    simp [negativeTrace]

/-- Witness for C10 at `okStore`, namespace "ns1", `n = 5`, `i = 0`. -/
theorem claim_C10_witness :
    1 ≤ 5 ∧
    ((Make "ns1" 0).meta.resourceVersion = "" ∧
    ((createConfigs "ns1" 5).all fun f => f.meta.resourceVersion == "") = true ∧
    getFirstRevision (createConfigs "ns1" 5) = "" ∧
    (invalidConfig (createConfigs "ns1" 5)).meta.resourceVersion = "" ∧
    (missingConfig (createConfigs "ns1" 5)).meta.resourceVersion = "" ∧
    StoreOp.createOp (invalidConfig (createConfigs "ns1" 5)) ∈
      (verifyErrorsOnInvalidOperations okStore () (createConfigs "ns1" 5)).trace ∧
    StoreOp.createOp (missingConfig (createConfigs "ns1" 5)) ∈
      (verifyErrorsOnInvalidOperations okStore () (createConfigs "ns1" 5)).trace) :=
  ⟨by decide, claim_C10 okStore () "ns1" 5 0 (by decide)⟩
